import Mathlib

/-!
Shallow embedding of the session / authentication / client-resolution core of
`codalab/lib/codalab_manager.py` (class `CodaLabManager`).

Modelling conventions:
* JSON dictionaries keyed by strings (the state document's `auth` and
  `sessions` sections, the process-local client map) are modelled as
  association lists `List (String × _)`; Python dict lookup / assignment /
  deletion become `alist_lookup` / `alist_set` / `alist_erase`.
* `time.time()` is modelled as a single integer snapshot `now` for the whole
  call (the source reads the clock up to three times during `_authenticate`;
  the claims under study do not depend on the sub-second drift between the
  reads, so one snapshot is used).
* External collaborators that are not part of the repository's sources are
  modelled at their interface boundary: the bundle-service client's
  `login(grant, username, credential)` is a function parameter returning
  `Option LoginTokenInfo`; `is_local_address` is a boolean parameter
  classifying the address; interactive input is a pair of parameters
  (`stdin_username`, `stdin_password`) together with a `prompted` flag in the
  outcome recording whether the interactive branch ran.
* `save_state` persists the whole in-memory state document; the manager is
  modelled in non-temporary mode, so each save copies the in-memory `auth`
  map into the `persistedAuth` field of the outcome.  `_authenticate` never
  touches the `sessions` section, so only the `auth` section is threaded
  through it.
* Python exceptions become explicit result constructors: `PermissionError`
  raised on failed credentials login is `AuthResult.permissionError`; a
  `KeyError` from reading a missing dict key (`auth['username']` on an entry
  without a username) is `AuthResult.keyError`.
-/

namespace CodalabManager

/-- Association-list lookup, mirroring Python `dict.get` / `dict[k]`. -/
def alist_lookup {α : Type} : List (String × α) → String → Option α
  | [], _ => none
  | (k, v) :: rest, key => if k = key then some v else alist_lookup rest key

/-- Association-list assignment, mirroring Python `dict[k] = v`. -/
def alist_set {α : Type} : List (String × α) → String → α → List (String × α)
  | [], key, v => [(key, v)]
  | (k, w) :: rest, key, v =>
      if k = key then (k, v) :: rest else (k, w) :: alist_set rest key v

/-- Association-list deletion, mirroring Python `del dict[k]` (the key-present
check is done by the caller, as in the source). -/
def alist_erase {α : Type} : List (String × α) → String → List (String × α)
  | [], _ => []
  | (k, w) :: rest, key =>
      if k = key then rest else (k, w) :: alist_erase rest key

theorem alist_lookup_set_self {α : Type} (m : List (String × α)) (k : String) (v : α) :
    alist_lookup (alist_set m k v) k = some v := by
  induction m with
  | nil => simp [alist_set, alist_lookup]
  | cons hd tl ih =>
      obtain ⟨k0, v0⟩ := hd
      by_cases h : k0 = k
      · simp [alist_set, alist_lookup, h]
      · simp [alist_set, alist_lookup, h, ih]

theorem alist_lookup_eq_none_of_not_mem {α : Type} (m : List (String × α)) (k : String)
    (h : k ∉ m.map Prod.fst) : alist_lookup m k = none := by
  induction m with
  | nil => rfl
  | cons hd tl ih =>
      obtain ⟨k0, v0⟩ := hd
      simp only [List.map_cons, List.mem_cons] at h
      push_neg at h
      have hk : k0 ≠ k := fun he => h.1 he.symm
      simp [alist_lookup, hk, ih h.2]

theorem alist_lookup_erase_self {α : Type} (m : List (String × α)) (k : String)
    (hnd : (m.map Prod.fst).Nodup) : alist_lookup (alist_erase m k) k = none := by
  induction m with
  | nil => rfl
  | cons hd tl ih =>
      obtain ⟨k0, v0⟩ := hd
      simp only [List.map_cons, List.nodup_cons] at hnd
      by_cases h : k0 = k
      · subst h
        simpa [alist_erase] using alist_lookup_eq_none_of_not_mem tl k0 hnd.1
      · simp [alist_erase, alist_lookup, h, ih hnd.2]

/-! ## Data model of the state document's `auth` section -/

/-- Token record as returned by the collaborator `client.login`: carries a
relative lifetime `expires_in` (source: `auth.py` contract, consumed by
`_cache_token`). -/
structure LoginTokenInfo where
  access_token : String
  refresh_token : String
  expires_in : Int
deriving DecidableEq, Repr

/-- Token record as cached in the state document: `_cache_token` has replaced
`expires_in` by an absolute `expires_at`.  The source reads it back with
`token_info.get('expires_at', 0.0)`, hence the `Option` with default 0. -/
structure CachedTokenInfo where
  access_token : String
  refresh_token : String
  expires_at : Option Int
deriving DecidableEq, Repr

/-- One entry of `state['auth']`: a dict that may hold `username` and
`token_info` keys. -/
structure AuthEntry where
  username : Option String
  token_info : Option CachedTokenInfo
deriving DecidableEq, Repr

abbrev AuthMap := List (String × AuthEntry)

/-- The `server.root_user_name` config value with its source default
(`self.config['server'].get('root_user_name', 'codalab')`). -/
structure Config where
  root_user_name_cfg : Option String
deriving DecidableEq, Repr

def root_user_name (c : Config) : String := c.root_user_name_cfg.getD "codalab"

/-- One network call made by `_authenticate` on the client. -/
inductive LoginCall where
  | refresh (username refresh_token : String)
  | credentials (username password : String)
deriving DecidableEq, Repr

/-- Result of `_authenticate`: an access token, a raised `PermissionError`
("Invalid username or password."), or a raised `KeyError` (reading
`auth['username']` when the key is absent). -/
inductive AuthResult where
  | token (access_token : String)
  | permissionError
  | keyError
deriving DecidableEq, Repr

/-- Observable outcome of one `_authenticate` call: the result, the in-memory
`auth` section afterwards, the `auth` section of the last-persisted state
document (equal to the input when `save_state` was never reached), the list of
`client.login` calls made, and whether the interactive prompt ran. -/
structure AuthOutcome where
  result : AuthResult
  auth : AuthMap
  persistedAuth : AuthMap
  calls : List LoginCall
  prompted : Bool
deriving DecidableEq, Repr

/-- The conversion performed by `_cache_token`:
`token_info['expires_at'] = time.time() + float(token_info['expires_in'])`
followed by `del token_info['expires_in']`. -/
def cache_token (now : Int) (ti : LoginTokenInfo) : CachedTokenInfo :=
  { access_token := ti.access_token
    refresh_token := ti.refresh_token
    expires_at := some (now + ti.expires_in) }

/-- Credential selection of the full-login path (lines 328-337): for a local
address the username is the configured root user name with empty password;
the interactive prompt runs when the username is still falsy (`if not
username:`), i.e. for non-local addresses or an empty configured root name.
Returns `(username, password, prompted)`. -/
def login_credentials_for (isLocal : Bool) (cfg : Config)
    (stdin_username stdin_password : String) : String × String × Bool :=
  if isLocal then
    if root_user_name cfg = "" then (stdin_username, stdin_password, true)
    else (root_user_name cfg, "", false)
  else (stdin_username, stdin_password, true)

/-- Full-credentials login path of `_authenticate` (lines 325-342): clear the
address's auth entry (`auth = self.state['auth'][address] = {}`), choose
credentials, call `client.login('credentials', ...)`; on `None` raise
`PermissionError` (no save), otherwise `_cache_token(token_info, username)`
stores the new entry and persists.  `priorCalls` carries the refresh attempt
made before falling through to this path, if any. -/
def credentials_login (now : Int) (address : String) (isLocal : Bool) (cfg : Config)
    (login : String → String → String → Option LoginTokenInfo)
    (stdin_username stdin_password : String)
    (auth0 : AuthMap) (priorCalls : List LoginCall) : AuthOutcome :=
  let cleared := alist_set auth0 address { username := none, token_info := none }
  let c := login_credentials_for isLocal cfg stdin_username stdin_password
  match login "credentials" c.1 c.2.1 with
  | none =>
      { result := .permissionError
        auth := cleared
        persistedAuth := auth0
        calls := priorCalls ++ [.credentials c.1 c.2.1]
        prompted := c.2.2 }
  | some ti =>
      let entry : AuthEntry := { username := some c.1, token_info := some (cache_token now ti) }
      let m := alist_set cleared address entry
      { result := .token ti.access_token
        auth := m
        persistedAuth := m
        calls := priorCalls ++ [.credentials c.1 c.2.1]
        prompted := c.2.2 }

/-- The `_authenticate` method (lines 283-342).  Cached branch: with a cached
`token_info` whose `expires_at` is in the future, return the cached access
token if `expires_at >= now + 10*60`, otherwise attempt a refresh with the
cached username and refresh token; on refresh success `_cache_token` replaces
the entry's `token_info` (username untouched) and persists.  Any other case
falls through to the full-credentials login path. -/
def authenticate (now : Int) (address : String) (isLocal : Bool) (cfg : Config)
    (login : String → String → String → Option LoginTokenInfo)
    (stdin_username stdin_password : String)
    (auth0 : AuthMap) : AuthOutcome :=
  match alist_lookup auth0 address with
  | some entry =>
    match entry.token_info with
    | some ti =>
      let expires_at := ti.expires_at.getD 0
      if expires_at > now then
        if expires_at ≥ now + 10 * 60 then
          { result := .token ti.access_token
            auth := auth0
            persistedAuth := auth0
            calls := []
            prompted := false }
        else
          match entry.username with
          | none =>
              { result := .keyError
                auth := auth0
                persistedAuth := auth0
                calls := []
                prompted := false }
          | some uname =>
            match login "refresh_token" uname ti.refresh_token with
            | some newTi =>
                let newEntry := { entry with token_info := some (cache_token now newTi) }
                let m := alist_set auth0 address newEntry
                { result := .token newTi.access_token
                  auth := m
                  persistedAuth := m
                  calls := [.refresh uname ti.refresh_token]
                  prompted := false }
            | none =>
                credentials_login now address isLocal cfg login
                  stdin_username stdin_password auth0
                  [.refresh uname ti.refresh_token]
      else
        credentials_login now address isLocal cfg login
          stdin_username stdin_password auth0 []
    | none =>
        credentials_login now address isLocal cfg login
          stdin_username stdin_password auth0 []
  | none =>
      credentials_login now address isLocal cfg login
        stdin_username stdin_password auth0 []

/-! ## Claims about the authentication engine -/

/-- C1: for every address with a cached auth entry whose `expires_at` lies
more than 600 seconds (`REFRESH_THRESHOLD`) past the current time,
`_authenticate` returns the cached access token unchanged, makes zero login
or refresh calls on the client, and leaves both the in-memory and the
persisted state document untouched. -/
theorem authenticate_fresh_cache_no_calls
    (now : Int) (address : String) (isLocal : Bool) (cfg : Config)
    (login : String → String → String → Option LoginTokenInfo)
    (su sp : String) (auth0 : AuthMap)
    (entry : AuthEntry) (ti : CachedTokenInfo) (e : Int)
    (hlook : alist_lookup auth0 address = some entry)
    (hti : entry.token_info = some ti)
    (hexp : ti.expires_at = some e)
    (hfresh : now + 600 < e) :
    authenticate now address isLocal cfg login su sp auth0 =
      { result := .token ti.access_token
        auth := auth0
        persistedAuth := auth0
        calls := []
        prompted := false } := by
  unfold authenticate
  rw [hlook]
  simp only [hti, hexp, Option.getD_some]
  rw [if_pos (by omega), if_pos (by omega)]

/-- Witness for C1: the spec's own example, a token expiring 700 seconds from
now, evaluated on a concrete state. -/
theorem authenticate_fresh_cache_no_calls_witness :
    authenticate 0 "https://w.example" false { root_user_name_cfg := none }
      (fun _ _ _ => none) "su" "sp"
      [("https://w.example",
        { username := some "alice"
          token_info := some { access_token := "acc0", refresh_token := "ref0",
                               expires_at := some 700 } })] =
      { result := .token "acc0"
        auth := [("https://w.example",
          { username := some "alice"
            token_info := some { access_token := "acc0", refresh_token := "ref0",
                                 expires_at := some 700 } })]
        persistedAuth := [("https://w.example",
          { username := some "alice"
            token_info := some { access_token := "acc0", refresh_token := "ref0",
                                 expires_at := some 700 } })]
        calls := []
        prompted := false } :=
  authenticate_fresh_cache_no_calls 0 "https://w.example" false
    { root_user_name_cfg := none } (fun _ _ _ => none) "su" "sp"
    [("https://w.example",
      { username := some "alice"
        token_info := some { access_token := "acc0", refresh_token := "ref0",
                             expires_at := some 700 } })]
    { username := some "alice"
      token_info := some { access_token := "acc0", refresh_token := "ref0",
                           expires_at := some 700 } }
    { access_token := "acc0", refresh_token := "ref0", expires_at := some 700 }
    700 (by simp [alist_lookup]) rfl rfl (by omega)

/-- C2 counterexample: with `expires_at` exactly 600 seconds past the current
time — in the future and within 600 seconds of now — the code takes the
fresh-cache branch (`expires_at >= time.time() + 10 * 60` holds), making zero
refresh calls and returning the old cached token, where the claim demands
exactly one refresh call.  The login function would succeed if it were ever
called. -/
theorem authenticate_boundary_600_no_refresh :
    authenticate 0 "https://w.example" false { root_user_name_cfg := none }
      (fun _ _ _ => some { access_token := "newacc", refresh_token := "newref",
                           expires_in := 3600 })
      "su" "sp"
      [("https://w.example",
        { username := some "alice"
          token_info := some { access_token := "acc0", refresh_token := "ref0",
                               expires_at := some 600 } })] =
      { result := .token "acc0"
        auth := [("https://w.example",
          { username := some "alice"
            token_info := some { access_token := "acc0", refresh_token := "ref0",
                                 expires_at := some 600 } })]
        persistedAuth := [("https://w.example",
          { username := some "alice"
            token_info := some { access_token := "acc0", refresh_token := "ref0",
                                 expires_at := some 600 } })]
        calls := []
        prompted := false } := by
  rfl

/-- C2 amended: for every address with a cached auth entry whose `expires_at`
is in the future but STRICTLY less than 600 seconds past the current time,
`_authenticate` makes exactly one refresh call (`client.login` with the
cached username and refresh token); on success it replaces the cached
entry's `token_info` with the new access and refresh tokens (the old refresh
token is discarded), sets `expires_at` to the refresh time plus the returned
relative lifetime, persists the state document synchronously before
returning, and returns the new access token. -/
theorem authenticate_stale_cache_single_refresh
    (now : Int) (address : String) (isLocal : Bool) (cfg : Config)
    (login : String → String → String → Option LoginTokenInfo)
    (su sp : String) (auth0 : AuthMap)
    (entry : AuthEntry) (ti : CachedTokenInfo) (e : Int) (uname : String)
    (newTi : LoginTokenInfo)
    (hlook : alist_lookup auth0 address = some entry)
    (hti : entry.token_info = some ti)
    (hexp : ti.expires_at = some e)
    (hfut : now < e)
    (hstale : e < now + 600)
    (huser : entry.username = some uname)
    (hlogin : login "refresh_token" uname ti.refresh_token = some newTi) :
    authenticate now address isLocal cfg login su sp auth0 =
      { result := .token newTi.access_token
        auth := alist_set auth0 address
          { entry with token_info := some (cache_token now newTi) }
        persistedAuth := alist_set auth0 address
          { entry with token_info := some (cache_token now newTi) }
        calls := [.refresh uname ti.refresh_token]
        prompted := false } := by
  unfold authenticate
  rw [hlook]
  simp only [hti, hexp, Option.getD_some]
  rw [if_pos (by omega), if_neg (by omega)]
  simp only [huser, hlogin, cache_token]

/-- Witness for C2 amended: the spec's own example, a token expiring 100
seconds from now, refreshed with a 3600-second lifetime. -/
theorem authenticate_stale_cache_single_refresh_witness :
    authenticate 0 "https://w.example" false { root_user_name_cfg := none }
      (fun _ _ _ => some { access_token := "newacc", refresh_token := "newref",
                           expires_in := 3600 })
      "su" "sp"
      [("https://w.example",
        { username := some "alice"
          token_info := some { access_token := "acc0", refresh_token := "ref0",
                               expires_at := some 100 } })] =
      { result := .token "newacc"
        auth := [("https://w.example",
          { username := some "alice"
            token_info := some { access_token := "newacc", refresh_token := "newref",
                                 expires_at := some 3600 } })]
        persistedAuth := [("https://w.example",
          { username := some "alice"
            token_info := some { access_token := "newacc", refresh_token := "newref",
                                 expires_at := some 3600 } })]
        calls := [.refresh "alice" "ref0"]
        prompted := false } := by
  have h := authenticate_stale_cache_single_refresh 0 "https://w.example" false
    { root_user_name_cfg := none }
    (fun _ _ _ => some { access_token := "newacc", refresh_token := "newref",
                         expires_in := 3600 })
    "su" "sp"
    [("https://w.example",
      { username := some "alice"
        token_info := some { access_token := "acc0", refresh_token := "ref0",
                             expires_at := some 100 } })]
    { username := some "alice"
      token_info := some { access_token := "acc0", refresh_token := "ref0",
                           expires_at := some 100 } }
    { access_token := "acc0", refresh_token := "ref0", expires_at := some 100 }
    100 "alice"
    { access_token := "newacc", refresh_token := "newref", expires_in := 3600 }
    (by simp [alist_lookup]) rfl rfl (by omega) (by omega) rfl rfl
  rw [h]
  rfl

/-- C3: when the address has no cached auth entry and the full credentials
login returns null, `_authenticate` raises `PermissionError` ("Invalid
username or password."), the persisted state document is never rewritten (its
auth entry for the address remains absent), and exactly one credentials login
call was made — the failure is never retried. -/
theorem authenticate_login_failure_no_partial_write
    (now : Int) (address : String) (isLocal : Bool) (cfg : Config)
    (login : String → String → String → Option LoginTokenInfo)
    (su sp : String) (auth0 : AuthMap)
    (habsent : alist_lookup auth0 address = none)
    (hfail : ∀ u p, login "credentials" u p = none) :
    (authenticate now address isLocal cfg login su sp auth0).result = .permissionError
    ∧ (authenticate now address isLocal cfg login su sp auth0).persistedAuth = auth0
    ∧ alist_lookup
        (authenticate now address isLocal cfg login su sp auth0).persistedAuth address = none
    ∧ ∃ u p, (authenticate now address isLocal cfg login su sp auth0).calls
        = [LoginCall.credentials u p] := by
  unfold authenticate credentials_login
  rw [habsent]
  simp only [hfail]
  exact ⟨trivial, trivial, habsent, _, _, rfl⟩

/-- Witness for C3: a concrete remote address with no cached entry and a
client that rejects every credentials login. -/
theorem authenticate_login_failure_no_partial_write_witness :
    (authenticate 0 "https://w.example" false { root_user_name_cfg := none }
      (fun _ _ _ => none) "joe" "pw" []).result = .permissionError
    ∧ (authenticate 0 "https://w.example" false { root_user_name_cfg := none }
        (fun _ _ _ => none) "joe" "pw" []).persistedAuth = []
    ∧ alist_lookup (authenticate 0 "https://w.example" false { root_user_name_cfg := none }
        (fun _ _ _ => none) "joe" "pw" []).persistedAuth "https://w.example" = none
    ∧ ∃ u p, (authenticate 0 "https://w.example" false { root_user_name_cfg := none }
        (fun _ _ _ => none) "joe" "pw" []).calls = [LoginCall.credentials u p] :=
  authenticate_login_failure_no_partial_write 0 "https://w.example" false
    { root_user_name_cfg := none } (fun _ _ _ => none) "joe" "pw" []
    rfl (fun _ _ => rfl)

/-- C4 counterexample: with the root user name configured as the empty string
(`server.root_user_name = ""`), the `if not username:` truthiness check in the
source fires even for a local address, so the full login DOES prompt and reads
the username and password from standard input instead of using the configured
root user name. -/
theorem authenticate_empty_root_name_prompts :
    (authenticate 0 "local" true { root_user_name_cfg := some "" }
      (fun _ _ _ => none) "joe" "pw" []).prompted = true
    ∧ (authenticate 0 "local" true { root_user_name_cfg := some "" }
        (fun _ _ _ => none) "joe" "pw" []).calls
          = [LoginCall.credentials "joe" "pw"] :=
  ⟨rfl, rfl⟩

/-- Helper: on the full-login path for a local address with a non-empty
configured root user name, no prompt is issued and the single credentials
call uses the root user name and the empty password. -/
theorem credentials_login_local_noninteractive
    (now : Int) (address : String) (cfg : Config)
    (login : String → String → String → Option LoginTokenInfo)
    (su sp : String) (auth0 : AuthMap) (prior : List LoginCall)
    (hroot : root_user_name cfg ≠ "") :
    (credentials_login now address true cfg login su sp auth0 prior).prompted = false
    ∧ (credentials_login now address true cfg login su sp auth0 prior).calls
        = prior ++ [LoginCall.credentials (root_user_name cfg) ""] := by
  unfold credentials_login login_credentials_for
  rw [if_pos rfl, if_neg hroot]
  cases h : login "credentials" (root_user_name cfg) "" <;> simp [h]

/-- C4 amended: for every local address, provided the configured root user
name is non-empty (as it is under the default `"codalab"`), `_authenticate`
never prompts and never reads standard input, every credentials login it
performs uses the configured root user name and the empty password, and when
no auth entry is cached for the address it performs exactly that one full
login. -/
theorem authenticate_local_noninteractive
    (now : Int) (address : String) (cfg : Config)
    (login : String → String → String → Option LoginTokenInfo)
    (su sp : String) (auth0 : AuthMap)
    (hroot : root_user_name cfg ≠ "") :
    (authenticate now address true cfg login su sp auth0).prompted = false
    ∧ (∀ u p, LoginCall.credentials u p ∈ (authenticate now address true cfg login su sp auth0).calls →
        u = root_user_name cfg ∧ p = "")
    ∧ (alist_lookup auth0 address = none →
        (authenticate now address true cfg login su sp auth0).calls
          = [LoginCall.credentials (root_user_name cfg) ""]) := by
  have hc := fun prior => credentials_login_local_noninteractive now address cfg login
    su sp auth0 prior hroot
  unfold authenticate
  cases hl : alist_lookup auth0 address with
  | none =>
      refine ⟨(hc []).1, ?_, fun _ => by rw [(hc []).2]; rfl⟩
      intro u p hm
      rw [(hc []).2] at hm
      simp only [List.nil_append, List.mem_singleton, LoginCall.credentials.injEq] at hm
      exact hm
  | some entry =>
      dsimp only
      cases ht : entry.token_info with
      | none =>
          refine ⟨(hc []).1, ?_, ?_⟩
          swap
          · intro h3
            cases h3
          intro u p hm
          rw [(hc []).2] at hm
          simp only [List.nil_append, List.mem_singleton, LoginCall.credentials.injEq] at hm
          exact hm
      | some ti =>
          dsimp only
          by_cases hfut : ti.expires_at.getD 0 > now
          · rw [if_pos hfut]
            by_cases hfresh : ti.expires_at.getD 0 ≥ now + 10 * 60
            · rw [if_pos hfresh]
              refine ⟨rfl, ?_, ?_⟩
              · intro u p hm
                cases hm
              · intro h3
                cases h3
            · rw [if_neg hfresh]
              cases hu : entry.username with
              | none =>
                  refine ⟨rfl, ?_, ?_⟩
                  · intro u p hm
                    cases hm
                  · intro h3
                    cases h3
              | some uname =>
                  dsimp only
                  cases hr : login "refresh_token" uname ti.refresh_token with
                  | some newTi =>
                      refine ⟨rfl, ?_, ?_⟩
                      · intro u p hm
                        simp only [List.mem_singleton] at hm
                        cases hm
                      · intro h3
                        cases h3
                  | none =>
                      refine ⟨(hc [.refresh uname ti.refresh_token]).1, ?_, ?_⟩
                      swap
                      · intro h3
                        cases h3
                      intro u p hm
                      rw [(hc [.refresh uname ti.refresh_token]).2] at hm
                      simp only [List.cons_append, List.nil_append, List.mem_cons,
                        List.mem_singleton, LoginCall.credentials.injEq] at hm
                      rcases hm with hm | hm | hm <;> first | exact hm | cases hm
          · rw [if_neg hfut]
            refine ⟨(hc []).1, ?_, ?_⟩
            swap
            · intro h3
              cases h3
            intro u p hm
            rw [(hc []).2] at hm
            simp only [List.nil_append, List.mem_singleton, LoginCall.credentials.injEq] at hm
            exact hm

/-- Witness for C4 amended: a local address under the default configuration
(no `root_user_name` key, hence "codalab") with an empty auth cache. -/
theorem authenticate_local_noninteractive_witness :
    ((authenticate 0 "local" true { root_user_name_cfg := none }
        (fun _ _ _ => none) "joe" "pw" []).prompted = false)
    ∧ (∀ u p, LoginCall.credentials u p ∈ (authenticate 0 "local" true { root_user_name_cfg := none }
        (fun _ _ _ => none) "joe" "pw" []).calls →
          u = root_user_name { root_user_name_cfg := none } ∧ p = "")
    ∧ (alist_lookup ([] : AuthMap) "local" = none →
        (authenticate 0 "local" true { root_user_name_cfg := none }
          (fun _ _ _ => none) "joe" "pw" []).calls
            = [LoginCall.credentials (root_user_name { root_user_name_cfg := none }) ""]) :=
  authenticate_local_noninteractive 0 "local" { root_user_name_cfg := none }
    (fun _ _ _ => none) "joe" "pw" [] (by decide)

/-! ## Client registry (`CodaLabManager.client`, lines 252-279)

The constructed handles (`LocalBundleClient` / `RemoteBundleClient`) and their
collaborators live outside this repository's sources, so a handle is modelled
as its address plus which construction path built it, and the side effects of
`client` are recorded as an event trace: construction, the `_authenticate`
invocation (whose internals are verified separately above), and the local
path's `auth_handler.validate_token` call. -/

inductive ClientKind where
  | localClient
  | remoteClient
deriving DecidableEq, Repr

/-- A process-local client handle, keyed by address in `self.clients`. -/
structure Client where
  address : String
  kind : ClientKind
deriving DecidableEq, Repr

abbrev ClientMap := List (String × Client)

/-- One observable side effect of `CodaLabManager.client`. -/
inductive ClientEvent where
  | constructLocal (address : String)
  | constructRemote (address : String)
  | authenticate (address : String)
  | validateToken (address : String)
deriving DecidableEq, Repr

/-- Outcome of one `client(address, is_cli)` call: the returned handle, the
updated process-local cache, and the side effects in order. -/
structure ClientOutcome where
  handle : Client
  clients : ClientMap
  events : List ClientEvent
deriving DecidableEq, Repr

/-- The `client` method: return the cached handle if present; otherwise build
a local handle (authenticating and validating the token only when `is_cli`)
or a remote handle (always authenticating after construction), caching the
handle under its address before the authentication step. -/
def client (clients0 : ClientMap) (address : String) (isLocal is_cli : Bool) :
    ClientOutcome :=
  match alist_lookup clients0 address with
  | some c => { handle := c, clients := clients0, events := [] }
  | none =>
      if isLocal then
        let c : Client := { address := address, kind := .localClient }
        let m := alist_set clients0 address c
        if is_cli then
          { handle := c, clients := m
            events := [.constructLocal address, .authenticate address,
                       .validateToken address] }
        else
          { handle := c, clients := m, events := [.constructLocal address] }
      else
        let c : Client := { address := address, kind := .remoteClient }
        { handle := c, clients := alist_set clients0 address c
          events := [.constructRemote address, .authenticate address] }

/-- C5: calling `client(address)` a second time in the same process returns
the identical cached handle the first call returned, leaves the cache
untouched, and performs no side effect at all (no reconstruction, no second
authentication), for every starting cache and every combination of
`is_cli` flags. -/
theorem client_second_call_cached (clients0 : ClientMap) (address : String)
    (l1 c1 l2 c2 : Bool) :
    (client (client clients0 address l1 c1).clients address l2 c2).handle
        = (client clients0 address l1 c1).handle
    ∧ (client (client clients0 address l1 c1).clients address l2 c2).clients
        = (client clients0 address l1 c1).clients
    ∧ (client (client clients0 address l1 c1).clients address l2 c2).events = [] := by
  unfold client
  cases hl : alist_lookup clients0 address with
  | some c => simp [hl]
  | none =>
      cases l1 <;> cases c1 <;>
        simp [alist_lookup_set_self]

/-- C6 counterexample: for a local address that is not yet cached and
`is_cli = false` (the server-side caller), `client` constructs the handle but
never invokes the authentication engine — the `if is_cli:` guard at line 270
skips it — so the claim's "for every value of is_cli" fails. -/
theorem client_local_server_skips_auth :
    (client [] "local" true false).events = [ClientEvent.constructLocal "local"]
    ∧ (client [] "local" true false).events.count (ClientEvent.authenticate "local") = 0 :=
  ⟨rfl, rfl⟩

/-- C6 amended: for every address not already cached, `client` invokes the
authentication engine exactly once immediately after constructing the handle
— on the remote path always, and on the local path when called by the CLI
(`is_cli = true`); the server-side local path (`is_cli = false`) skips
authentication. -/
theorem client_new_address_authenticates_once (clients0 : ClientMap)
    (address : String) (isLocal is_cli : Bool)
    (hnew : alist_lookup clients0 address = none)
    (hcli : isLocal = true → is_cli = true) :
    (client clients0 address isLocal is_cli).events.count
        (ClientEvent.authenticate address) = 1
    ∧ (client clients0 address isLocal is_cli).events[1]?
        = some (ClientEvent.authenticate address) := by
  unfold client
  rw [hnew]
  cases isLocal with
  | false => simp [List.count_cons, List.count_singleton]
  | true =>
      rw [hcli rfl]
      simp [List.count_cons, List.count_singleton]

/-- Witness for C6 amended: a fresh remote address. -/
theorem client_new_address_authenticates_once_witness :
    (client [] "https://w.example" false true).events.count
        (ClientEvent.authenticate "https://w.example") = 1
    ∧ (client [] "https://w.example" false true).events[1]?
        = some (ClientEvent.authenticate "https://w.example") :=
  client_new_address_authenticates_once [] "https://w.example" false true rfl
    (fun h => by cases h)

/-! ## Session resolver (`CodaLabManager.session_name`, lines 151-177)

The process table is an external collaborator (psutil).  An ancestor is a
`Proc` (program name and pid); the chain handed to the walk is the ancestry
starting at the current process's parent, as a `List (Option Proc)`: a `none`
element models process introspection failing at that hop (psutil's `parent()`
returns `None` when the parent process has vanished or cannot be determined),
which terminates the `while process and max_depth` loop exactly like the true
end of the chain. -/

/-- One ancestor process as seen through psutil: program name and pid. -/
structure Proc where
  name : String
  pid : Nat
deriving DecidableEq, Repr

/-- The fixed set of interactive shell names matched at line 172. -/
def shellNames : List String := ["bash", "csh", "zsh"]

/-- The ancestry walk of `session_name` (lines 167-175): visit up to
`max_depth` ancestors; each shell-named ancestor overwrites the current
candidate with its pid; stop at the hop budget, the end of the chain, or an
introspection failure. -/
def ancestryWalk : List (Option Proc) → Nat → String → String
  | _, 0, session => session
  | [], _, session => session
  | none :: _, _, session => session
  | some p :: rest, d + 1, session =>
      ancestryWalk rest d (if p.name ∈ shellNames then toString p.pid else session)

/-- The `session_name` method: the constant "temporary" in temporary mode,
the `CODALAB_SESSION` environment override when set and non-empty (Python
truthiness), otherwise the ancestry walk with budget 10 and default "top". -/
def session_name (temporary : Bool) (env_session : Option String)
    (ancestors : List (Option Proc)) : String :=
  if temporary then "temporary"
  else
    match env_session with
    | some s => if s ≠ "" then s else ancestryWalk ancestors 10 "top"
    | none => ancestryWalk ancestors 10 "top"

/-- The pid of the last (outermost) shell-named process of a chain, if any:
the reference value the walk is proved to compute. -/
def lastShellPid : List Proc → Option Nat
  | [] => none
  | p :: rest =>
      match lastShellPid rest with
      | some q => some q
      | none => if p.name ∈ shellNames then some p.pid else none

theorem ancestryWalk_map_some (ps : List Proc) :
    ∀ (d : Nat) (s : String),
      ancestryWalk (ps.map some) d s
        = (match lastShellPid (ps.take d) with
           | some q => toString q
           | none => s) := by
  induction ps with
  | nil =>
      intro d s
      cases d <;> simp [ancestryWalk, lastShellPid]
  | cons p rest ih =>
      intro d s
      cases d with
      | zero => simp [ancestryWalk, lastShellPid]
      | succ d =>
          simp only [List.map_cons, List.take_succ_cons, ancestryWalk, lastShellPid]
          rw [ih d]
          cases h : lastShellPid (rest.take d) with
          | some q => simp
          | none =>
              by_cases hm : p.name ∈ shellNames <;> simp [hm]

theorem ancestryWalk_stops_at_none (ps : List Proc) :
    ∀ (junk : List (Option Proc)) (d : Nat) (s : String),
      ancestryWalk (ps.map some ++ none :: junk) d s = ancestryWalk (ps.map some) d s := by
  induction ps with
  | nil =>
      intro junk d s
      cases d <;> simp [ancestryWalk]
  | cons p rest ih =>
      intro junk d s
      cases d with
      | zero => simp [ancestryWalk]
      | succ d =>
          simp only [List.map_cons, List.cons_append, ancestryWalk]
          exact ih junk d _

/-- C7: with temporary mode off and no environment override, `session_name`
walks at most 10 ancestors starting at the current process's parent and
returns, as a string, the pid of the outermost (last-matched) ancestor whose
program name is a fixed shell name, or the constant "top" when no ancestor
within the hop budget matches.  In particular the ancestry
`[self -> sh -> bash(pid 555) -> other]` yields "555", and a chain with no
shell within 10 hops yields "top". -/
theorem session_name_outermost_shell :
    (∀ ps : List Proc,
      session_name false none (ps.map some)
        = (match lastShellPid (ps.take 10) with
           | some q => toString q
           | none => "top"))
    ∧ session_name false none
        ([⟨"sh", 17⟩, ⟨"bash", 555⟩, ⟨"other", 9⟩].map some) = "555"
    ∧ session_name false none
        ([⟨"sh", 1⟩, ⟨"python", 2⟩, ⟨"init", 3⟩].map some) = "top" := by
  refine ⟨?_, rfl, rfl⟩
  intro ps
  unfold session_name
  simp only [if_neg (Bool.false_ne_true)]
  exact ancestryWalk_map_some ps 10 "top"

/-- C8: if process introspection fails mid-walk (an ancestor vanished, so
psutil's `parent()` yields no process), the failure never propagates: the
walk treats the failure point as chain termination and returns the candidate
computed from the ancestors examined before it — the outermost shell pid so
far, or "top" if none was recorded — no matter what lies beyond the failure
point. -/
theorem session_name_introspection_failure_safe (pre : List Proc)
    (junk : List (Option Proc)) :
    session_name false none (pre.map some ++ none :: junk)
        = session_name false none (pre.map some)
    ∧ session_name false none (pre.map some ++ none :: junk)
        = (match lastShellPid (pre.take 10) with
           | some q => toString q
           | none => "top") := by
  have h1 : session_name false none (pre.map some ++ none :: junk)
      = session_name false none (pre.map some) := by
    unfold session_name
    simp only [if_neg (Bool.false_ne_true)]
    exact ancestryWalk_stops_at_none pre junk 10 "top"
  refine ⟨h1, ?_⟩
  rw [h1]
  unfold session_name
  simp only [if_neg (Bool.false_ne_true)]
  exact ancestryWalk_map_some pre 10 "top"

/-! ## Worksheet context (`session`, `get_current_worksheet_uuid`,
`set_current_worksheet_uuid`, lines 179-192 and 344-368) and `logout`
(lines 370-372).

A `sessions` entry is a dict with an `address` key and an optional
`worksheet_uuid` key.  The client reached through the registry is represented
by its address and by its `get_worksheet_uuid(parent, name)` capability,
passed as a function parameter. -/

/-- One entry of `state['sessions']`. -/
structure SessionEntry where
  address : String
  worksheet_uuid : Option String
deriving DecidableEq, Repr

abbrev SessionMap := List (String × SessionEntry)

/-- The `session` accessor (lines 179-192): return the current session's
entry, creating it with the configured defaults on first access — note the
created entry always carries a `worksheet_uuid` key, defaulted to the empty
string when `cli.default_worksheet_uuid` is not configured.  Returns the
entry together with the (possibly extended) sessions map. -/
def session (sessions0 : SessionMap) (default_address default_worksheet_uuid : Option String)
    (name : String) : SessionEntry × SessionMap :=
  match alist_lookup sessions0 name with
  | some e => (e, sessions0)
  | none =>
      let e : SessionEntry :=
        { address := default_address.getD "local"
          worksheet_uuid := some (default_worksheet_uuid.getD "") }
      (e, alist_set sessions0 name e)

/-- Outcome of `set_current_worksheet_uuid`: the in-memory sessions map and
the sessions section of the persisted state document (the method always ends
in `save_state`). -/
structure WsSetOutcome where
  sessions : SessionMap
  persistedSessions : SessionMap
deriving DecidableEq, Repr

/-- The `set_current_worksheet_uuid` method (lines 358-368): fetch (or
create) the session entry, point its `address` at the given client, store the
uuid when truthy or delete the `worksheet_uuid` key when falsy, and persist. -/
def set_current_worksheet_uuid (sessions0 : SessionMap)
    (default_address default_worksheet_uuid : Option String)
    (name clientAddress worksheet_uuid : String) : WsSetOutcome :=
  let se := session sessions0 default_address default_worksheet_uuid name
  let e1 := { se.1 with address := clientAddress }
  let e2 :=
    if worksheet_uuid ≠ "" then { e1 with worksheet_uuid := some worksheet_uuid }
    else { e1 with worksheet_uuid := none }
  let m := alist_set se.2 name e2
  { sessions := m, persistedSessions := m }

/-- The uuid-resolution part of `get_current_worksheet_uuid` (lines 344-356):
fetch (or create) the session entry; when its stored `worksheet_uuid` is
absent or falsy (empty), resolve through the client's
`get_worksheet_uuid(None, '')`; return the session's address, the resolved
uuid and the (possibly extended) sessions map. -/
def get_current_worksheet_uuid (sessions0 : SessionMap)
    (default_address default_worksheet_uuid : Option String) (name : String)
    (get_worksheet_uuid : Option String → String → String) :
    String × String × SessionMap :=
  let se := session sessions0 default_address default_worksheet_uuid name
  let uuid :=
    match se.1.worksheet_uuid with
    | some u => if u ≠ "" then u else get_worksheet_uuid none ""
    | none => get_worksheet_uuid none ""
  (se.1.address, uuid, se.2)

/-- C9 counterexample: starting from the documented initial state document
(`sessions = {}`) with no `cli.default_worksheet_uuid` configured, the very
first `session` access creates an entry whose `worksheet_uuid` key is present
and equal to the empty string — a reachable state (persisted wholesale by the
next `save_state`) violating the claimed "never the empty string" invariant. -/
theorem session_default_empty_worksheet_uuid :
    alist_lookup (session [] none none "top").2 "top"
      = some { address := "local", worksheet_uuid := some "" } :=
  rfl

/-- C9 amended: `set_current_worksheet_uuid` with an empty (falsy) uuid
removes the `worksheet_uuid` key from the session's entry (rather than
storing an empty string) and persists synchronously, and
`get_current_worksheet_uuid` on a session whose key is absent OR empty
resolves the uuid via the client's default-resolution path
(`get_worksheet_uuid(None, '')`) rather than returning a stored empty
string; however, an entry whose `worksheet_uuid` is the empty string does
occur: session creation defaults the key to the empty string when no
`cli.default_worksheet_uuid` is configured, so the never-empty invariant
holds only for entries last written by `set_current_worksheet_uuid`. -/
theorem worksheet_uuid_clear_and_resolve :
    (∀ (sessions0 : SessionMap) (dA dW : Option String) (name clientAddress : String),
      alist_lookup (set_current_worksheet_uuid sessions0 dA dW name clientAddress "").sessions
          name
        = some { address := clientAddress, worksheet_uuid := none }
      ∧ (set_current_worksheet_uuid sessions0 dA dW name clientAddress "").persistedSessions
        = (set_current_worksheet_uuid sessions0 dA dW name clientAddress "").sessions)
    ∧ (∀ (sessions0 : SessionMap) (dA dW : Option String) (name : String)
        (f : Option String → String → String) (e : SessionEntry),
        alist_lookup sessions0 name = some e →
        (e.worksheet_uuid = none ∨ e.worksheet_uuid = some "") →
        (get_current_worksheet_uuid sessions0 dA dW name f).2.1 = f none "") := by
  constructor
  · intro sessions0 dA dW name clientAddress
    refine ⟨?_, rfl⟩
    unfold set_current_worksheet_uuid
    simp only [ne_eq, not_true_eq_false, if_neg, ite_false]
    exact alist_lookup_set_self _ name _
  · intro sessions0 dA dW name f e he hwu
    unfold get_current_worksheet_uuid session
    rw [he]
    rcases hwu with h | h <;> simp [h]

/-- Witness for C9 amended: clearing on a concrete one-session map, and
resolving on a session with an empty stored uuid and on one with the key
absent. -/
theorem worksheet_uuid_clear_and_resolve_witness :
    (alist_lookup (set_current_worksheet_uuid
        [("top", { address := "local", worksheet_uuid := some "0xws" })]
        none none "top" "https://w.example" "").sessions "top"
      = some { address := "https://w.example", worksheet_uuid := none }
      ∧ (set_current_worksheet_uuid
          [("top", { address := "local", worksheet_uuid := some "0xws" })]
          none none "top" "https://w.example" "").persistedSessions
        = (set_current_worksheet_uuid
            [("top", { address := "local", worksheet_uuid := some "0xws" })]
            none none "top" "https://w.example" "").sessions)
    ∧ (get_current_worksheet_uuid
        [("top", { address := "local", worksheet_uuid := some "" })]
        none none "top" (fun _ _ => "0xhome")).2.1 = (fun (_ : Option String) (_ : String) => "0xhome") none "" :=
  ⟨(worksheet_uuid_clear_and_resolve.1 [("top", { address := "local", worksheet_uuid := some "0xws" })]
      none none "top" "https://w.example"),
   (worksheet_uuid_clear_and_resolve.2 [("top", { address := "local", worksheet_uuid := some "" })]
      none none "top" (fun _ _ => "0xhome") { address := "local", worksheet_uuid := some "" }
      rfl (Or.inr rfl))⟩

/-- Outcome of `logout`: whether a `KeyError` was raised by the unguarded
`del self.state['auth'][client.address]`, the in-memory auth map, and the
auth section of the persisted state document. -/
structure LogoutOutcome where
  raised : Bool
  auth : AuthMap
  persistedAuth : AuthMap
deriving DecidableEq, Repr

/-- The `logout` method (lines 370-372): delete the address's auth entry —
raising `KeyError` when it is absent, in which case `save_state` is never
reached — then persist. -/
def logout (auth0 : AuthMap) (address : String) : LogoutOutcome :=
  match alist_lookup auth0 address with
  | none => { raised := true, auth := auth0, persistedAuth := auth0 }
  | some _ =>
      let m := alist_erase auth0 address
      { raised := false, auth := m, persistedAuth := m }

/-- C10: for a client whose address has no entry in the state's auth mapping,
`logout` raises (the unguarded deletion of a missing key) rather than acting
as a no-op and the state file is not rewritten; when the entry exists (keys
being unique, as in a Python dict), `logout` removes it completely and
persists the updated state. -/
theorem logout_missing_entry_raises (auth0 : AuthMap) (address : String) :
    (alist_lookup auth0 address = none →
      (logout auth0 address).raised = true
      ∧ (logout auth0 address).persistedAuth = auth0)
    ∧ ((auth0.map Prod.fst).Nodup →
      ∀ e, alist_lookup auth0 address = some e →
        (logout auth0 address).raised = false
        ∧ alist_lookup (logout auth0 address).auth address = none
        ∧ (logout auth0 address).persistedAuth = (logout auth0 address).auth) := by
  constructor
  · intro h
    unfold logout
    rw [h]
    exact ⟨rfl, rfl⟩
  · intro hnd e he
    unfold logout
    rw [he]
    exact ⟨rfl, alist_lookup_erase_self auth0 address hnd, rfl⟩

/-- Witness for C10: a missing address raises without persisting; a present
address is removed completely and persisted. -/
theorem logout_missing_entry_raises_witness :
    ((logout [] "https://w.example").raised = true
      ∧ (logout [] "https://w.example").persistedAuth = [])
    ∧ ((logout [("local", { username := some "codalab", token_info := none })] "local").raised
          = false
      ∧ alist_lookup (logout [("local", { username := some "codalab", token_info := none })]
          "local").auth "local" = none
      ∧ (logout [("local", { username := some "codalab", token_info := none })]
          "local").persistedAuth
        = (logout [("local", { username := some "codalab", token_info := none })] "local").auth) :=
  ⟨(logout_missing_entry_raises [] "https://w.example").1 rfl,
   (logout_missing_entry_raises [("local", { username := some "codalab", token_info := none })]
      "local").2 (by simp) { username := some "codalab", token_info := none } rfl⟩

end CodalabManager
